import Mathlib

/-!
Verification of the token-refresh utility subsystem of the `spotipy` client
library: the `RefreshingToken` wrapper, the URL authorization-code extractor
`parse_code_from_url`, the environment-based credential reader
`read_environment`, and the interactive prompt `prompt_for_user_token`.

The implementation module `spotipy/util.py` and the `Token` class of
`spotipy/auth.py` are not present under `src/`; only their test suite
(`src/tests/util.py`) is.  The definitions below are therefore modelled from
the specification's description of each component, and their error kinds from
the assertions of the test suite.
-/

namespace Spotipy

/-- A value readable through a token attribute: tokens expose strings, an
optional refresh-token string, an integral expiry instant and a Boolean
expiry report. -/
inductive AttrValue where
  | str : String → AttrValue
  | ostr : Option String → AttrValue
  | intv : Int → AttrValue
  | boolv : Bool → AttrValue
  deriving DecidableEq

/-- Modelled from the spec: `spotipy.auth.Token` (absent from `src/`; only its
tests import it).  "Represents an OAuth2 access token issued by the remote
service.  Attributes: access token string, expiry instant, scope set, token
type, optional refresh token string.  Immutable once constructed."  The
is-expiring policy is internal to `Token` and depends on the current time; the
tests treat it as an opaque Boolean report, so it is a field here. -/
structure Token where
  access_token : String
  token_type : String
  scope : String
  expires_at : Int
  refresh_token : Option String
  is_expiring : Bool
  deriving DecidableEq

/-- Modelled from the spec: the credential client capability, which "must
support `authorizationUrl() -> string`, `requestAccessToken(code: string) ->
Token`, `refreshToken(token: Token) -> Token`".  Field names follow the test
suite's spelling. -/
structure Credentials where
  authorisation_url : String
  request_access_token : String → Token
  refresh_token : Token → Token

/-- Modelled from the spec: `RefreshingToken` "OWNS a current Token instance
and a reference to a credential client capability". -/
structure RefreshingToken where
  token : Token
  credentials : Credentials

/-- Modelled from the spec: the access-token read of a `RefreshingToken`.
"Every read of the access-token value first checks whether the held Token
reports itself as expiring; if so, the held Token is replaced by a freshly
obtained one from the credential client's refresh operation, before the value
is returned."  The result records the value read, the wrapper state after the
read, and how many times the credential client's refresh operation was
invoked by this read. -/
def RefreshingToken.access_token (rt : RefreshingToken) :
    String × RefreshingToken × Nat :=
  if rt.token.is_expiring then
    let t2 := rt.credentials.refresh_token rt.token
    (t2.access_token, ⟨t2, rt.credentials⟩, 1)
  else
    (rt.token.access_token, rt, 0)

/-- The publicly readable attribute surface of a `Token`, as a name-indexed
read.  Returns `none` for names a `Token` does not expose. -/
def Token.readAttr (t : Token) (name : String) : Option AttrValue :=
  if name = "access_token" then some (AttrValue.str t.access_token)
  else if name = "token_type" then some (AttrValue.str t.token_type)
  else if name = "scope" then some (AttrValue.str t.scope)
  else if name = "expires_at" then some (AttrValue.intv t.expires_at)
  else if name = "refresh_token" then some (AttrValue.ostr t.refresh_token)
  else if name = "is_expiring" then some (AttrValue.boolv t.is_expiring)
  else none

/-- Modelled from the spec: attribute reads on a `RefreshingToken` are
"resolved lazily via the refresh algorithm", triggered "on every access-token
read (and, for full compatibility, on every other attribute read that depends
on current token state)".  The result records the value read, the wrapper
state after the read, and the number of refresh invocations. -/
def RefreshingToken.readAttr (rt : RefreshingToken) (name : String) :
    Option AttrValue × RefreshingToken × Nat :=
  if rt.token.is_expiring then
    let t2 := rt.credentials.refresh_token rt.token
    (t2.readAttr name, ⟨t2, rt.credentials⟩, 1)
  else
    (rt.token.readAttr name, rt, 0)

/-- Characters of a list up to (excluding) the first occurrence of `sep`. -/
def takeUntil (sep : Char) (cs : List Char) : List Char :=
  cs.takeWhile (fun c => c ≠ sep)

/-- Characters of a list after the first occurrence of `sep`; empty when
`sep` does not occur. -/
def dropThrough (sep : Char) : List Char → List Char
  | [] => []
  | c :: rest => if c = sep then rest else dropThrough sep rest

/-- Splits a character list at every occurrence of `sep`; auxiliary
accumulator form. -/
def splitAux (sep : Char) : List Char → List Char → List (List Char)
  | [], acc => [acc.reverse]
  | c :: rest, acc =>
    if c = sep then acc.reverse :: splitAux sep rest []
    else splitAux sep rest (c :: acc)

/-- Splits a character list at every occurrence of `sep`. -/
def splitOnChar (sep : Char) (cs : List Char) : List (List Char) :=
  splitAux sep cs []

/-- Modelled from the spec: the query-string component of a URL — the part
after the first question mark of the part before the first hash (the
fragment). -/
def queryOf (url : List Char) : List Char :=
  dropThrough '?' (takeUntil '#' url)

/-- Value of a hexadecimal digit character, if it is one. -/
def hexVal (c : Char) : Option Nat :=
  if '0' ≤ c ∧ c ≤ '9' then some (c.toNat - '0'.toNat)
  else if 'a' ≤ c ∧ c ≤ 'f' then some (c.toNat - 'a'.toNat + 10)
  else if 'A' ≤ c ∧ c ≤ 'F' then some (c.toNat - 'A'.toNat + 10)
  else none

/-- Standard percent decoding: a percent sign followed by two hexadecimal
digits decodes to the escaped character; other characters pass through. -/
def percentDecode : List Char → List Char
  | '%' :: a :: b :: rest =>
    match hexVal a, hexVal b with
    | some ha, some hb => Char.ofNat (16 * ha + hb) :: percentDecode rest
    | _, _ => '%' :: percentDecode (a :: b :: rest)
  | c :: rest => c :: percentDecode rest
  | [] => []

/-- Standard query-string decoding of one component: plus signs decode to
spaces, then percent escapes are decoded. -/
def unquote_plus (cs : List Char) : List Char :=
  percentDecode (cs.map (fun c => if c = '+' then ' ' else c))

/-- Modelled from the spec: "standard query-string decoding" of a query into
name/value pairs.  The query splits at ampersands; each nonempty field splits
at its first equals sign; a field without an equals sign or with an empty
value is dropped; names and values are decoded. -/
def parse_qsl (query : List Char) : List (String × String) :=
  (splitOnChar '&' query).filterMap (fun field =>
    if field.isEmpty then none
    else
      let value := dropThrough '=' field
      if value.isEmpty then none
      else some (String.mk (unquote_plus (takeUntil '=' field)),
                 String.mk (unquote_plus value)))

/-- All decoded values carried by a given parameter name in a query. -/
def qsValues (query : List Char) (key : String) : List String :=
  (parse_qsl query).filterMap (fun p => if p.1 = key then some p.2 else none)

/-- The two failure kinds of the URL code extractor: zero `code` parameters,
or more than one. -/
inductive CodeError where
  | missingCode
  | ambiguousCode
  deriving DecidableEq

/-- Modelled from the test suite (`src/tests/util.py`): both extraction
failures are asserted to surface as the Python exception type `KeyError`. -/
def CodeError.pythonExceptionType : CodeError → String
  | CodeError.missingCode => "KeyError"
  | CodeError.ambiguousCode => "KeyError"

/-- Modelled from the spec: `parse_code_from_url` "parses the query-string
component of `url`", fails with a missing-code error if no `code` parameter
is present, fails with an ambiguous-code error if it appears more than once,
and otherwise returns the single code value. -/
def parse_code_from_url (url : String) : Except CodeError String :=
  match qsValues (queryOf url.data) "code" with
  | [] => Except.error CodeError.missingCode
  | [c] => Except.ok c
  | _ => Except.error CodeError.ambiguousCode

/-- The failure kind of the environment reader: a requested name is absent. -/
inductive ConfigError where
  | missingConfiguration
  deriving DecidableEq

/-- Modelled from the spec: `read_environment` "looks up three named entries
in process-wide environment state using the caller-supplied names", returns
the three values in the fixed order client id, client secret, redirect URI,
and "fails with a missing-configuration error if any of the three named
entries is absent".  The environment is passed as a string-keyed lookup. -/
def read_environment (env : String → Option String)
    (id_name secret_name uri_name : String) :
    Except ConfigError (String × String × String) :=
  match env id_name, env secret_name, env uri_name with
  | some i, some s, some u => Except.ok (i, s, u)
  | _, _, _ => Except.error ConfigError.missingConfiguration

/-- Outcome of one run of the interactive prompt: the token produced (or the
propagated extraction error), the number of reads performed on the user input
channel, and the authorization URL presented to the user. -/
structure PromptOutcome where
  result : Except CodeError RefreshingToken
  input_reads : Nat
  presented_url : String

/-- Modelled from the spec: `prompt_for_user_token` constructs the credential
client from the three inputs, presents its authorization URL, blocks for one
line of user input (the pasted redirect URL), extracts the code from it (an
extraction failure aborts the whole call), exchanges the code for a token and
wraps it in a `RefreshingToken`.  The user input channel is modelled by the
line it supplies; `input_reads` counts how many times it is read. -/
def prompt_for_user_token (make_credentials : String → String → String → Credentials)
    (client_id client_secret redirect_uri : String)
    (input_line : String) : PromptOutcome :=
  let cred := make_credentials client_id client_secret redirect_uri
  match parse_code_from_url input_line with
  | Except.error e => ⟨Except.error e, 1, cred.authorisation_url⟩
  | Except.ok code =>
    ⟨Except.ok ⟨cred.request_access_token code, cred⟩, 1, cred.authorisation_url⟩

/-- A concrete non-expiring token used by witnesses. -/
def sampleToken : Token :=
  ⟨"token", "Bearer", "user-read-private", 3600, some "rtok", false⟩

/-- A concrete expiring token used by witnesses. -/
def expiringToken : Token :=
  ⟨"expiring", "Bearer", "user-read-private", 0, some "rtok", true⟩

/-- A concrete credential client used by witnesses: its refresh operation
returns a fixed refreshed token and its code exchange tags the code. -/
def sampleCred : Credentials :=
  ⟨"http://auth.example.com",
   fun code => ⟨"exchanged-" ++ code, "Bearer", "", 3600, none, false⟩,
   fun _ => ⟨"refreshed", "Bearer", "user-read-private", 3600, some "rtok", false⟩⟩

/-- A concrete environment used by witnesses. -/
def sampleEnv : String → Option String :=
  fun k =>
    if k = "A" then some "id"
    else if k = "B" then some "secret"
    else if k = "C" then some "uri"
    else none

/-- The someness of a `Token` attribute read depends only on the attribute
name, not on the token: every token exposes exactly the same names. -/
theorem Token.readAttr_isSome_congr (t t' : Token) (name : String) :
    (Token.readAttr t name).isSome = (Token.readAttr t' name).isSome := by
  unfold Token.readAttr
  split_ifs <;> rfl

/-- C1: for every Token T whose is-expiring check reports false and every
credential client cred, reading `access_token` on `RefreshingToken(T, cred)`
returns exactly T's access token, leaves the held token untouched, and never
invokes cred's refresh operation during the read. -/
theorem refreshing_token_fresh_returned (T : Token) (cred : Credentials)
    (h : T.is_expiring = false) :
    (RefreshingToken.mk T cred).access_token =
      (T.access_token, RefreshingToken.mk T cred, 0) := by
  simp [RefreshingToken.access_token, h]

/-- Witness for C1 at a concrete non-expiring token. -/
theorem refreshing_token_fresh_returned_witness :
    (RefreshingToken.mk sampleToken sampleCred).access_token =
      (sampleToken.access_token, RefreshingToken.mk sampleToken sampleCred, 0) :=
  refreshing_token_fresh_returned sampleToken sampleCred rfl

/-- C2: for every Token T whose is-expiring check reports true and every
credential client cred, reading `access_token` on `RefreshingToken(T, cred)`
refreshes once: the value returned is the access token of `cred.refresh_token
T`, and the held token is replaced by that refreshed token. -/
theorem refreshing_token_expiring_refreshed (T : Token) (cred : Credentials)
    (h : T.is_expiring = true) :
    (RefreshingToken.mk T cred).access_token =
      ((cred.refresh_token T).access_token,
        RefreshingToken.mk (cred.refresh_token T) cred, 1) := by
  simp [RefreshingToken.access_token, h]

/-- Witness for C2 at a concrete expiring token: the wrapper returns the
refreshed token's access token. -/
theorem refreshing_token_expiring_refreshed_witness :
    (RefreshingToken.mk expiringToken sampleCred).access_token =
      ((sampleCred.refresh_token expiringToken).access_token,
        RefreshingToken.mk (sampleCred.refresh_token expiringToken) sampleCred, 1) :=
  refreshing_token_expiring_refreshed expiringToken sampleCred rfl

/-- C3: every publicly readable attribute name available on a Token is also
available on a RefreshingToken wrapping it, and the value read is
behaviorally equivalent: when the held token is not expiring it is exactly
the held token's value (when it is expiring, the read delegates to the
refreshed token, which is the specified behavior). -/
theorem refreshing_token_attribute_surface (T : Token) (cred : Credentials)
    (name : String) (h : (Token.readAttr T name).isSome = true) :
    ((RefreshingToken.mk T cred).readAttr name).1.isSome = true ∧
    (T.is_expiring = false →
      ((RefreshingToken.mk T cred).readAttr name).1 = Token.readAttr T name) := by
  cases he : T.is_expiring
  case false => simp [RefreshingToken.readAttr, he, h]
  case true =>
    refine ⟨?_, fun hc => by simp [he] at hc⟩
    simp only [RefreshingToken.readAttr, he, if_true]
    rw [Token.readAttr_isSome_congr (cred.refresh_token T) T]
    exact h

/-- Witness for C3 at the `access_token` attribute of a concrete
non-expiring token. -/
theorem refreshing_token_attribute_surface_witness :
    ((RefreshingToken.mk sampleToken sampleCred).readAttr "access_token").1.isSome = true ∧
    (sampleToken.is_expiring = false →
      ((RefreshingToken.mk sampleToken sampleCred).readAttr "access_token").1 =
        Token.readAttr sampleToken "access_token") :=
  refreshing_token_attribute_surface sampleToken sampleCred "access_token" rfl

/-- C4: `parse_code_from_url` fails with the missing-code error whenever the
url's query string carries no `code` parameter. -/
theorem parse_code_missing (url : String)
    (h : qsValues (queryOf url.data) "code" = []) :
    parse_code_from_url url = Except.error CodeError.missingCode := by
  unfold parse_code_from_url
  rw [h]

/-- Witness for C4 at the claim's two concrete inputs: the empty string and a
well-formed URL with no query parameters. -/
theorem parse_code_missing_witness :
    parse_code_from_url "" = Except.error CodeError.missingCode ∧
    parse_code_from_url "http://example.com" = Except.error CodeError.missingCode :=
  ⟨parse_code_missing "" rfl, parse_code_missing "http://example.com" rfl⟩

/-- C5: `parse_code_from_url` fails with the ambiguous-code error whenever
the `code` parameter appears more than once in the url's query string. -/
theorem parse_code_ambiguous (url : String)
    (h : 2 ≤ (qsValues (queryOf url.data) "code").length) :
    parse_code_from_url url = Except.error CodeError.ambiguousCode := by
  unfold parse_code_from_url
  match hq : qsValues (queryOf url.data) "code" with
  | [] => rw [hq] at h; simp at h
  | [c] => rw [hq] at h; simp at h
  | a :: b :: rest => rfl

/-- Witness for C5 at the claim's concrete input with two `code`
parameters. -/
theorem parse_code_ambiguous_witness :
    parse_code_from_url "http://example.com?code=1&code=2" =
      Except.error CodeError.ambiguousCode :=
  parse_code_ambiguous "http://example.com?code=1&code=2" (by decide)

/-- C6: for every url whose query string carries exactly one `code`
parameter, `parse_code_from_url` succeeds and returns that single decoded
value. -/
theorem parse_code_single (url v : String)
    (h : qsValues (queryOf url.data) "code" = [v]) :
    parse_code_from_url url = Except.ok v := by
  unfold parse_code_from_url
  rw [h]

/-- Witness for C6: on `"http://example.com?code=1"` the extractor returns
`"1"`. -/
theorem parse_code_single_witness :
    parse_code_from_url "http://example.com?code=1" = Except.ok "1" :=
  parse_code_single "http://example.com?code=1" "1" (by decide)

/-- C7: when all three caller-supplied names are present in the environment,
`read_environment` returns the three looked-up values as a triple in the
fixed order client id, client secret, redirect URI. -/
theorem read_environment_all_present (env : String → Option String)
    (id_name secret_name uri_name i s u : String)
    (h1 : env id_name = some i) (h2 : env secret_name = some s)
    (h3 : env uri_name = some u) :
    read_environment env id_name secret_name uri_name = Except.ok (i, s, u) := by
  unfold read_environment
  rw [h1, h2, h3]

/-- Witness for C7: with entries A="id", B="secret", C="uri", the reader
returns ("id", "secret", "uri") in that order. -/
theorem read_environment_all_present_witness :
    read_environment sampleEnv "A" "B" "C" = Except.ok ("id", "secret", "uri") :=
  read_environment_all_present sampleEnv "A" "B" "C" "id" "secret" "uri" rfl rfl rfl

/-- C8: `read_environment` fails with the missing-configuration error
whenever any one of the three named entries is absent, even if the other two
are present; it never substitutes a value for a missing entry. -/
theorem read_environment_missing (env : String → Option String)
    (id_name secret_name uri_name : String)
    (h : env id_name = none ∨ env secret_name = none ∨ env uri_name = none) :
    read_environment env id_name secret_name uri_name =
      Except.error ConfigError.missingConfiguration := by
  unfold read_environment
  rcases hi : env id_name with _ | i <;>
    rcases hs : env secret_name with _ | s <;>
      rcases hu : env uri_name with _ | u <;>
        simp_all

/-- Witness for C8: with A and B present but D absent, the reader fails. -/
theorem read_environment_missing_witness :
    read_environment sampleEnv "A" "B" "D" =
      Except.error ConfigError.missingConfiguration :=
  read_environment_missing sampleEnv "A" "B" "D" (Or.inr (Or.inr rfl))

/-- C9: when the pasted redirect URL carries exactly one `code` parameter,
`prompt_for_user_token` reads the input channel exactly once and returns a
RefreshingToken wrapping the token obtained by exchanging that code through
the constructed credential client. -/
theorem prompt_returns_refreshing_token
    (make_credentials : String → String → String → Credentials)
    (client_id client_secret redirect_uri input_line code : String)
    (h : parse_code_from_url input_line = Except.ok code) :
    prompt_for_user_token make_credentials client_id client_secret redirect_uri
        input_line =
      ⟨Except.ok
          (RefreshingToken.mk
            ((make_credentials client_id client_secret redirect_uri).request_access_token
              code)
            (make_credentials client_id client_secret redirect_uri)),
        1,
        (make_credentials client_id client_secret redirect_uri).authorisation_url⟩ := by
  unfold prompt_for_user_token
  rw [h]

/-- A concrete credential-client constructor used by the C9 witness. -/
def sampleMakeCredentials : String → String → String → Credentials :=
  fun _ _ _ => sampleCred

/-- Witness for C9 at the test suite's concrete prompt run. -/
theorem prompt_returns_refreshing_token_witness :
    prompt_for_user_token sampleMakeCredentials "" "" ""
        "http://example.com?code=1" =
      ⟨Except.ok
          (RefreshingToken.mk
            ((sampleMakeCredentials "" "" "").request_access_token "1")
            (sampleMakeCredentials "" "" "")),
        1,
        (sampleMakeCredentials "" "" "").authorisation_url⟩ :=
  prompt_returns_refreshing_token sampleMakeCredentials "" "" ""
    "http://example.com?code=1" "1" rfl

/-- C10: both failure conditions of `parse_code_from_url` — zero `code`
parameters and more than one — surface as the same Python exception kind,
KeyError, so the two cases are indistinguishable by error type alone. -/
theorem parse_code_error_kinds_coincide :
    parse_code_from_url "" = Except.error CodeError.missingCode ∧
    parse_code_from_url "http://example.com?code=1&code=2" =
      Except.error CodeError.ambiguousCode ∧
    CodeError.pythonExceptionType CodeError.missingCode = "KeyError" ∧
    CodeError.pythonExceptionType CodeError.ambiguousCode = "KeyError" ∧
    CodeError.pythonExceptionType CodeError.missingCode =
      CodeError.pythonExceptionType CodeError.ambiguousCode :=
  ⟨rfl, rfl, rfl, rfl, rfl⟩

end Spotipy
